import Mathlib

/-!
Shallow embedding of `verl/workers/engine/base.py`.

The file defines two things:

* `BaseEngine` — an abstract base class all of whose methods (including
  `__init__`) raise `NotImplementedError`;
* `EngineRegistry` — a class-level dictionary `_engines` mapping string keys
  to engine classes, with a decorator `register` (which asserts
  `issubclass(engine_class, BaseEngine)` before inserting) and a factory
  `new` (which raises `NotImplementedError("Unknown engine: {key}")` on a
  missing key and otherwise calls the registered class on the given
  arguments).

The embedding models Python classes as first-class values (`EngineClass`),
Python object construction as allocation of a fresh object id followed by
running the class's `__init__` behaviour, and the registry dictionary as a
function from string keys to optional classes.  Exceptions are modelled with
`Except PyError`.
-/

/-- The Python exceptions that `base.py` can raise: `NotImplementedError`
(with an optional message — the bare stubs carry none, the registry miss
carries "Unknown engine: <key>") and the `AssertionError` produced by the
`assert issubclass(...)` in `EngineRegistry.register`. -/
inductive PyError where
  | notImplementedError (msg : Option String)
  | assertionError
deriving DecidableEq, Repr

/-- The interface methods declared on `BaseEngine` (besides `__init__`,
which is modelled separately as construction behaviour). -/
inductive EngineMethod where
  | init_model
  | train_mode
  | eval_mode
  | infer_batch
  | train_batch
  | optimizer_zero_grad
  | optimizer_step
  | lr_scheduler_step
  | shard_data
  | unshard_data
  | to
  | save_checkpoint
  | load_checkpoint
deriving DecidableEq, Repr

/-- Every interface method of `BaseEngine`, enumerated. -/
def allEngineMethods : List EngineMethod :=
  [.init_model, .train_mode, .eval_mode, .infer_batch, .train_batch,
   .optimizer_zero_grad, .optimizer_step, .lr_scheduler_step,
   .shard_data, .unshard_data, .to, .save_checkpoint, .load_checkpoint]

/-- A Python engine class, as the registry sees one: whether it is a
subclass of `BaseEngine` (the only property `register`'s assert inspects),
what its `__init__` does on given construction arguments (`none` = returns
normally, `some e` = raises `e`), and which interface methods the class
overrides — a method it does not override is inherited from `BaseEngine`,
whose stub raises `NotImplementedError`.  `Arg` is the (opaque) type of a
single construction argument. -/
structure EngineClass (Arg : Type) where
  clsId : Nat
  isSubclassOfBaseEngine : Bool
  initBehavior : List Arg → Option PyError
  overridesMethod : EngineMethod → Bool

/-- `true` iff the class overrides (actually implements) every interface
method of the capability set, rather than inheriting a raising stub. -/
def implementsAll {Arg : Type} (cls : EngineClass Arg) : Bool :=
  allEngineMethods.all cls.overridesMethod

/-- A Python engine instance: a fresh object id (Python object identity),
the class it was constructed from, and the arguments its `__init__`
received. -/
structure EngineInstance (Arg : Type) where
  objId : Nat
  cls : EngineClass Arg
  initArgs : List Arg

/-- Python object construction `cls(*args)`: allocate a fresh object and run
`cls.__init__` on exactly the given arguments; if `__init__` raises, the
call raises, otherwise the new instance is returned. -/
def instantiateClass {Arg : Type} (cls : EngineClass Arg) (args : List Arg)
    (objId : Nat) : Except PyError (EngineInstance Arg) :=
  match cls.initBehavior args with
  | some e => .error e
  | none => .ok ⟨objId, cls, args⟩

/-- Calling interface method `m` on an instance: if the instance's class
does not override `m`, dispatch reaches `BaseEngine`'s stub, which raises a
bare `NotImplementedError`; otherwise the (backend-specific) override runs
and this model reports no stub error. -/
def inheritedStubError {Arg : Type} (inst : EngineInstance Arg)
    (m : EngineMethod) : Option PyError :=
  if inst.cls.overridesMethod m then none else some (.notImplementedError none)

/-- The registry dictionary `EngineRegistry._engines`: a mapping from string
keys to engine classes (constructors) — the table holds classes only, never
engine instances, exactly as in the source. -/
def EngineTable (Arg : Type) : Type := String → Option (EngineClass Arg)

/-- The empty registry dictionary (`_engines = {}`). -/
def emptyEngineTable (Arg : Type) : EngineTable Arg := fun _ => none

namespace EngineRegistry

/-- `EngineRegistry.register(key)` applied (as a decorator) to
`engine_class`: first `assert issubclass(engine_class, BaseEngine)` — if the
assert fails the call raises `AssertionError` and the dictionary is
untouched; otherwise `cls._engines[key] = engine_class` (a dictionary
assignment, silently overwriting any previous entry) and the decorator
returns `engine_class` itself.  The result is the dictionary after the call
together with the decorator's return value (or the raised error). -/
def register {Arg : Type} (t : EngineTable Arg) (key : String)
    (engine_class : EngineClass Arg) :
    EngineTable Arg × Except PyError (EngineClass Arg) :=
  if engine_class.isSubclassOfBaseEngine then
    (fun k => if k = key then some engine_class else t k, .ok engine_class)
  else
    (t, .error .assertionError)

/-- `EngineRegistry.new(key, *args)`: if `key in cls._engines`, construct
`cls._engines[key](*args)` (allocating a fresh object id and forwarding the
arguments unmodified); otherwise raise
`NotImplementedError(f"Unknown engine: {key}")`.  The method only reads the
dictionary, so the returned table is the input table; `nextObjId` is the
allocator state for Python object identity. -/
def new {Arg : Type} (t : EngineTable Arg) (nextObjId : Nat) (key : String)
    (args : List Arg) :
    EngineTable Arg × Nat × Except PyError (EngineInstance Arg) :=
  match t key with
  | some cls => (t, nextObjId + 1, instantiateClass cls args nextObjId)
  | none => (t, nextObjId, .error (.notImplementedError (some ("Unknown engine: " ++ key))))

end EngineRegistry

/-- One observable operation on the registry: applying the `register`
decorator, or calling `new`. -/
inductive RegistryOp (Arg : Type) where
  | registerOp (key : String) (cls : EngineClass Arg)
  | newOp (key : String) (args : List Arg)

/-- Run one registry operation on the registry state (dictionary plus object
allocator), keeping the resulting dictionary whether or not the operation
raised. -/
def applyRegistryOp {Arg : Type} (st : EngineTable Arg × Nat) :
    RegistryOp Arg → EngineTable Arg × Nat
  | .registerOp k cls => ((EngineRegistry.register st.1 k cls).1, st.2)
  | .newOp k args =>
      let r := EngineRegistry.new st.1 st.2 k args
      (r.1, r.2.1)

/-- Run a sequence of registry operations. -/
def applyRegistryOps {Arg : Type} (st : EngineTable Arg × Nat)
    (ops : List (RegistryOp Arg)) : EngineTable Arg × Nat :=
  ops.foldl applyRegistryOp st

/-- `BaseEngine` as a class value: it is (trivially) a subclass of itself,
its `__init__` raises a bare `NotImplementedError`, and it overrides none of
the interface stubs. -/
def baseEngineClass (Arg : Type) : EngineClass Arg :=
  { clsId := 0
    isSubclassOfBaseEngine := true
    initBehavior := fun _ => some (.notImplementedError none)
    overridesMethod := fun _ => false }

namespace BaseEngine

/-- Per-call metrics as `infer_batch` / `train_batch` return them: a mapping
from string labels to values. -/
def Metrics (τ : Type) : Type := List (String × τ)

/-- `BaseEngine.init_model`: `raise NotImplementedError`.  `σ` is the
(opaque) engine state; the stub raises before touching it. -/
def init_model {σ : Type} (_s : σ) : Except PyError (σ × Unit) :=
  .error (.notImplementedError none)

/-- `BaseEngine.train_mode`: `raise NotImplementedError`. -/
def train_mode {σ : Type} (_s : σ) : Except PyError (σ × Unit) :=
  .error (.notImplementedError none)

/-- `BaseEngine.eval_mode`: `raise NotImplementedError`. -/
def eval_mode {σ : Type} (_s : σ) : Except PyError (σ × Unit) :=
  .error (.notImplementedError none)

/-- `BaseEngine.infer_batch(data, post_fn)`: `raise NotImplementedError`. -/
def infer_batch {σ δ τ : Type} (_s : σ) (_data : δ)
    (_post_fn : δ → τ → τ × Metrics τ) : Except PyError (σ × Metrics τ) :=
  .error (.notImplementedError none)

/-- `BaseEngine.train_batch(data, loss_fn)`: `raise NotImplementedError`. -/
def train_batch {σ δ τ : Type} (_s : σ) (_data : δ)
    (_loss_fn : δ → τ → τ × Metrics τ) : Except PyError (σ × Metrics τ) :=
  .error (.notImplementedError none)

/-- `BaseEngine.optimizer_zero_grad`: `raise NotImplementedError`. -/
def optimizer_zero_grad {σ : Type} (_s : σ) : Except PyError (σ × Unit) :=
  .error (.notImplementedError none)

/-- `BaseEngine.optimizer_step`: `raise NotImplementedError` (a conforming
override would return the gradient norm). -/
def optimizer_step {σ : Type} (_s : σ) : Except PyError (σ × Rat) :=
  .error (.notImplementedError none)

/-- `BaseEngine.lr_scheduler_step`: `raise NotImplementedError` (a
conforming override would return the updated learning rate(s)). -/
def lr_scheduler_step {σ : Type} (_s : σ) : Except PyError (σ × List Rat) :=
  .error (.notImplementedError none)

/-- `BaseEngine.shard_data(data)`: `raise NotImplementedError`. -/
def shard_data {σ δ : Type} (_s : σ) (_data : δ) : Except PyError (σ × δ) :=
  .error (.notImplementedError none)

/-- `BaseEngine.unshard_data(data)`: `raise NotImplementedError`. -/
def unshard_data {σ δ : Type} (_s : σ) (_data : δ) : Except PyError (σ × δ) :=
  .error (.notImplementedError none)

/-- `BaseEngine.to(device, model=True, optimizer=True)`:
`raise NotImplementedError`. -/
def «to» {σ : Type} (_s : σ) (_device : String) (_model : Bool := true)
    (_optimizer : Bool := true) : Except PyError (σ × Unit) :=
  .error (.notImplementedError none)

/-- `BaseEngine.save_checkpoint(local_path, hdfs_path=None, global_step=0,
max_ckpt_to_keep=None)`: `raise NotImplementedError`. -/
def save_checkpoint {σ : Type} (_s : σ) (_local_path : String)
    (_hdfs_path : Option String := none) (_global_step : Nat := 0)
    (_max_ckpt_to_keep : Option Nat := none) : Except PyError (σ × Unit) :=
  .error (.notImplementedError none)

/-- `BaseEngine.load_checkpoint(local_path, hdfs_path=None,
del_local_after_load=True)`: `raise NotImplementedError`. -/
def load_checkpoint {σ : Type} (_s : σ) (_local_path : String)
    (_hdfs_path : Option String := none) (_del_local_after_load : Bool := true) :
    Except PyError (σ × Unit) :=
  .error (.notImplementedError none)

end BaseEngine

/-- Split a list into consecutive chunks of size `k + 1` (the successor
guarantees progress, so no positivity side condition is needed). -/
def chunkList {α : Type} (k : Nat) : List α → List (List α)
  | [] => []
  | x :: xs => (x :: xs.take k) :: chunkList k (xs.drop k)
termination_by l => l.length
decreasing_by
  simp only [List.length_cons, List.length_drop]
  omega

/-- Concatenate shards back into one list (gather-then-concatenate). -/
def concatShards {α : Type} : List (List α) → List α
  | [] => []
  | s :: rest => s ++ concatShards rest

namespace SpecEngine

/-- Modelled from the spec: concrete implementations of
`BaseEngine.shard_data` are external backends, absent from the source (the
stub in `base.py` raises `NotImplementedError`); §4.2 describes
`shard_data` as a pure transform that partitions the data across workers,
with no side effect on model/optimizer state.  Here the engine state `s` is
returned untouched and the data is split into consecutive index-preserving
chunks of size `chunkSize + 1`. -/
def shard_data {σ α : Type} (chunkSize : Nat) (s : σ) (data : List α) :
    σ × List (List α) :=
  (s, chunkList chunkSize data)

/-- Modelled from the spec: concrete implementations of
`BaseEngine.unshard_data` are external backends, absent from the source (the
stub in `base.py` raises `NotImplementedError`); §4.2 describes
`unshard_data` as the inverse gather, a pure transform with no side effect
on model/optimizer state.  Here the engine state `s` is returned untouched
and the shards are concatenated back in order. -/
def unshard_data {σ α : Type} (s : σ) (shards : List (List α)) :
    σ × List α :=
  (s, concatShards shards)

end SpecEngine

/-- Modelled from the spec: the retention policy of
`BaseEngine.save_checkpoint` (`base.py`'s stub raises
`NotImplementedError`); §4.2 says that when `max_ckpt_to_keep` is set the
oldest checkpoints beyond that count, ordered by `global_step`, are
deleted.  The store lists the `global_step` of each on-disk checkpoint in
save order (ascending step order when saves use increasing steps), so the
oldest entries are at the front and pruning keeps the last `K`. -/
def pruneOldest (K : Nat) (store : List Nat) : List Nat :=
  store.drop (store.length - K)

/-- Modelled from the spec: one `save_checkpoint(..., global_step,
max_ckpt_to_keep)` call as the checkpoint store observes it — the new
checkpoint is written, then, if `max_ckpt_to_keep = some K`, the oldest
checkpoints beyond `K` are deleted. -/
def save_checkpoint_step (maxCkptToKeep : Option Nat) (store : List Nat)
    (global_step : Nat) : List Nat :=
  match maxCkptToKeep with
  | none => store ++ [global_step]
  | some K => pruneOldest K (store ++ [global_step])

/-- A sequence of `save_checkpoint` calls at the given steps, all with the
same retention setting, starting from the given store. -/
def saveCheckpoints (maxCkptToKeep : Option Nat) (store : List Nat)
    (steps : List Nat) : List Nat :=
  steps.foldl (save_checkpoint_step maxCkptToKeep) store

/-- A fully-implementing engine class, used as a concrete test backend: a
subclass of `BaseEngine` that overrides every interface method and whose
`__init__` accepts any arguments. -/
def fsdpEngineClass : EngineClass Nat :=
  { clsId := 1
    isSubclassOfBaseEngine := true
    initBehavior := fun _ => none
    overridesMethod := fun _ => true }

/-- A second fully-implementing engine class, distinct from
`fsdpEngineClass`, used to exercise re-registration. -/
def megatronEngineClass : EngineClass Nat :=
  { clsId := 2
    isSubclassOfBaseEngine := true
    initBehavior := fun _ => none
    overridesMethod := fun _ => true }

/-- A class that subclasses `BaseEngine` but overrides none of the interface
stubs: Python's `class Stub(BaseEngine): pass`.  Its inherited `__init__` is
`BaseEngine.__init__`, which raises a bare `NotImplementedError`; here its
`__init__` is taken as overridden (returning normally) so that construction
succeeds while every interface method still reaches a raising stub. -/
def stubOnlyEngineClass : EngineClass Nat :=
  { clsId := 3
    isSubclassOfBaseEngine := true
    initBehavior := fun _ => none
    overridesMethod := fun _ => false }

/-- A class that is not a subclass of `BaseEngine` (so
`assert issubclass(engine_class, BaseEngine)` fails on it), even though it
would implement every method. -/
def notAnEngineClass : EngineClass Nat :=
  { clsId := 4
    isSubclassOfBaseEngine := false
    initBehavior := fun _ => none
    overridesMethod := fun _ => true }

/-- A concrete registry table with one entry: `fsdpEngineClass` registered
under the key "fsdp". -/
def sampleEngineTable : EngineTable Nat :=
  (EngineRegistry.register (emptyEngineTable Nat) "fsdp" fsdpEngineClass).1

/-- Concatenating the chunks of a list restores the list, stated with an
explicit bound on the length for the induction. -/
theorem concatShards_chunkList_aux {α : Type} (k n : Nat) :
    ∀ l : List α, l.length ≤ n → concatShards (chunkList k l) = l := by
  induction n with
  | zero =>
    intro l h
    have : l = [] := List.eq_nil_of_length_eq_zero (Nat.le_zero.mp h)
    subst this
    rw [chunkList, concatShards]
  | succ n ih =>
    intro l h
    match l with
    | [] => rw [chunkList, concatShards]
    | x :: xs =>
      rw [chunkList]
      simp only [concatShards]
      rw [ih (xs.drop k) (by simp only [List.length_drop]; simp at h; omega)]
      simp only [List.cons_append, List.take_append_drop]

/-- Concatenating the chunks of a list restores the list. -/
theorem concatShards_chunkList {α : Type} (k : Nat) (l : List α) :
    concatShards (chunkList k l) = l :=
  concatShards_chunkList_aux k l.length l (Nat.le_refl _)

/-- Pruning a store that was already pruned and then extended by one entry
gives the same result as pruning the unpruned extension. -/
theorem pruneOldest_append (K : Nat) (l : List Nat) (s : Nat) :
    pruneOldest K (pruneOldest K l ++ [s]) = pruneOldest K (l ++ [s]) := by
  unfold pruneOldest
  rw [← List.drop_append_of_le_length (by omega : l.length - K ≤ l.length)]
  rw [List.drop_drop]
  congr 1
  simp only [List.length_drop, List.length_append, List.length_singleton]
  omega

/-- Folding `save_checkpoint` calls over further steps, starting from a
pruned store, prunes the whole history once at the end. -/
theorem saveCheckpoints_pruneOldest (K : Nat) (steps : List Nat) :
    ∀ l : List Nat,
      saveCheckpoints (some K) (pruneOldest K l) steps = pruneOldest K (l ++ steps) := by
  induction steps with
  | nil => intro l; simp [saveCheckpoints]
  | cons s rest ih =>
    intro l
    simp only [saveCheckpoints, List.foldl_cons]
    have hstep : save_checkpoint_step (some K) (pruneOldest K l) s
        = pruneOldest K (l ++ [s]) := by
      simp [save_checkpoint_step, pruneOldest_append]
    rw [hstep]
    have := ih (l ++ [s])
    simp only [saveCheckpoints] at this
    rw [this, List.append_assoc]
    rfl

/-- Claim C1: for an unregistered key, `EngineRegistry.new` raises
`NotImplementedError` with the message "Unknown engine: <key>", identifying
the offending key; for a registered key it does not take the error branch
and instead returns exactly the result of constructing the class registered
under the key on the given arguments (an instance of that class whenever its
`__init__` returns normally). -/
theorem claim_C1_new_dispatch {Arg : Type} (t : EngineTable Arg) (n : Nat)
    (key : String) (args : List Arg) :
    (t key = none →
      EngineRegistry.new t n key args
        = (t, n, .error (.notImplementedError (some ("Unknown engine: " ++ key))))) ∧
    (∀ E : EngineClass Arg, t key = some E →
      EngineRegistry.new t n key args = (t, n + 1, instantiateClass E args n) ∧
      (E.initBehavior args = none →
        EngineRegistry.new t n key args = (t, n + 1, .ok ⟨n, E, args⟩))) := by
  constructor
  · intro h
    simp [EngineRegistry.new, h]
  · intro E h
    constructor
    · simp [EngineRegistry.new, h]
    · intro hinit
      simp [EngineRegistry.new, h, instantiateClass, hinit]

/-- Claim C3: `unshard_data` after `shard_data` restores the data exactly
(the shards here are index-preserving consecutive chunks, concatenated back
in order), and neither transform touches the engine state `s` holding model
and optimizer state. -/
theorem claim_C3_roundtrip {σ α : Type} (chunkSize : Nat) (s : σ) (x : List α) :
    SpecEngine.unshard_data (SpecEngine.shard_data chunkSize s x).1
        (SpecEngine.shard_data chunkSize s x).2 = (s, x) := by
  simp [SpecEngine.shard_data, SpecEngine.unshard_data, concatShards_chunkList]

/-- Claim C9: a failed registration is atomic — applying the decorator to a
class that is not a subclass of `BaseEngine` raises `AssertionError` before
the dictionary assignment, so the table is returned exactly as it was and
every key maps to exactly what it mapped to before. -/
theorem claim_C9_failed_register_atomic {Arg : Type} (t : EngineTable Arg)
    (key : String) (cls : EngineClass Arg)
    (h : cls.isSubclassOfBaseEngine = false) :
    EngineRegistry.register t key cls = (t, .error .assertionError) ∧
    ∀ k, (EngineRegistry.register t key cls).1 k = t k := by
  constructor
  · simp [EngineRegistry.register, h]
  · intro k
    simp [EngineRegistry.register, h]

/-- Claim C10: the decorator returned by `register(key)` hands back the
decorated class itself, unchanged, whenever the class is a subclass of
`BaseEngine`. -/
theorem claim_C10_decorator_returns_class {Arg : Type} (t : EngineTable Arg)
    (key : String) (cls : EngineClass Arg)
    (h : cls.isSubclassOfBaseEngine = true) :
    (EngineRegistry.register t key cls).2 = .ok cls := by
  simp [EngineRegistry.register, h]

/-- Claim C7: `BaseEngine` is an abstract base whose every method —
`__init__` (modelled as `baseEngineClass`'s construction behaviour),
`init_model`, `train_mode`, `eval_mode`, `infer_batch`, `train_batch`,
`optimizer_zero_grad`, `optimizer_step`, `lr_scheduler_step`, `shard_data`,
`unshard_data`, `to`, `save_checkpoint`, `load_checkpoint` — raises a bare
`NotImplementedError` on any arguments and has no other effect (no result
and no successor state are ever produced). -/
theorem claim_C7_stubs_raise :
    ∀ (σ δ τ Arg : Type) (s : σ) (data : δ)
      (post_fn loss_fn : δ → τ → τ × BaseEngine.Metrics τ) (args : List Arg)
      (device : String) (model optim : Bool) (local_path : String)
      (hdfs_path : Option String) (global_step : Nat)
      (max_ckpt_to_keep : Option Nat) (del_local_after_load : Bool)
      (objId : Nat),
      instantiateClass (baseEngineClass Arg) args objId
          = .error (.notImplementedError none) ∧
      BaseEngine.init_model s = .error (.notImplementedError none) ∧
      BaseEngine.train_mode s = .error (.notImplementedError none) ∧
      BaseEngine.eval_mode s = .error (.notImplementedError none) ∧
      BaseEngine.infer_batch s data post_fn = .error (.notImplementedError none) ∧
      BaseEngine.train_batch s data loss_fn = .error (.notImplementedError none) ∧
      BaseEngine.optimizer_zero_grad s = .error (.notImplementedError none) ∧
      BaseEngine.optimizer_step s = .error (.notImplementedError none) ∧
      BaseEngine.lr_scheduler_step s = .error (.notImplementedError none) ∧
      BaseEngine.shard_data s data = .error (.notImplementedError none) ∧
      BaseEngine.unshard_data s data = .error (.notImplementedError none) ∧
      BaseEngine.to s device model optim = .error (.notImplementedError none) ∧
      BaseEngine.save_checkpoint s local_path hdfs_path global_step max_ckpt_to_keep
          = .error (.notImplementedError none) ∧
      BaseEngine.load_checkpoint s local_path hdfs_path del_local_after_load
          = .error (.notImplementedError none) := by
  intros
  exact ⟨rfl, rfl, rfl, rfl, rfl, rfl, rfl, rfl, rfl, rfl, rfl, rfl, rfl, rfl⟩

/-- Claim C4: on a registered key whose class constructs successfully, each
`new` call allocates a fresh instance — two consecutive calls return
instances with distinct object ids — forwards the construction arguments
unmodified to the registered class's `__init__`, and leaves the registry
table (which by its very type holds only classes, never instances)
untouched. -/
theorem claim_C4_fresh_instances {Arg : Type} (t : EngineTable Arg) (n : Nat)
    (key : String) (args1 args2 : List Arg) (E : EngineClass Arg)
    (hk : t key = some E) (h1 : E.initBehavior args1 = none)
    (h2 : E.initBehavior args2 = none) :
    EngineRegistry.new t n key args1 = (t, n + 1, .ok ⟨n, E, args1⟩) ∧
    EngineRegistry.new t (n + 1) key args2 = (t, n + 2, .ok ⟨n + 1, E, args2⟩) ∧
    (⟨n, E, args1⟩ : EngineInstance Arg).objId
      ≠ (⟨n + 1, E, args2⟩ : EngineInstance Arg).objId := by
  refine ⟨?_, ?_, ?_⟩
  · simp [EngineRegistry.new, hk, instantiateClass, h1]
  · simp [EngineRegistry.new, hk, instantiateClass, h2]
  · simp

/-- Claim C8: re-registering an already-registered key silently overwrites
the previous entry — after registering `A` and then `B` under the same key
(both subclasses of `BaseEngine`), the second registration raises no error
and returns `B`, the table maps the key to `B`, and a subsequent `new`
constructs a `B` instance. -/
theorem claim_C8_reregister_overwrites {Arg : Type} (t : EngineTable Arg)
    (key : String) (A B : EngineClass Arg) (n : Nat) (args : List Arg)
    (hA : A.isSubclassOfBaseEngine = true)
    (hB : B.isSubclassOfBaseEngine = true) :
    (EngineRegistry.register ((EngineRegistry.register t key A).1) key B).2
        = .ok B ∧
    ((EngineRegistry.register ((EngineRegistry.register t key A).1) key B).1) key
        = some B ∧
    (B.initBehavior args = none →
      EngineRegistry.new
          ((EngineRegistry.register ((EngineRegistry.register t key A).1) key B).1)
          n key args
        = ((EngineRegistry.register ((EngineRegistry.register t key A).1) key B).1,
           n + 1, .ok ⟨n, B, args⟩)) := by
  refine ⟨?_, ?_, ?_⟩
  · simp [EngineRegistry.register, hA, hB]
  · simp [EngineRegistry.register, hA, hB]
  · intro hinit
    have hkey : ((EngineRegistry.register ((EngineRegistry.register t key A).1) key B).1) key
        = some B := by
      simp [EngineRegistry.register, hA, hB]
    simp [EngineRegistry.new, hkey, instantiateClass, hinit]

/-- Claim C2 is false on the code: `register` only asserts
`issubclass(engine_class, BaseEngine)`, which does not require the class to
implement (override) any interface method.  Concretely,
`stubOnlyEngineClass` — a `BaseEngine` subclass overriding none of the
interface methods — is accepted by registration even though it implements
none of the capability set, and the instance later produced by `new`
reaches `BaseEngine`'s raising stub on every interface method (shown here
on `train_batch`). -/
theorem claim_C2_counterexample :
    (EngineRegistry.register (emptyEngineTable Nat) "stub" stubOnlyEngineClass).2
        = .ok stubOnlyEngineClass ∧
    implementsAll stubOnlyEngineClass = false ∧
    (EngineRegistry.new
        ((EngineRegistry.register (emptyEngineTable Nat) "stub" stubOnlyEngineClass).1)
        0 "stub" []).2.2
      = .ok ⟨0, stubOnlyEngineClass, []⟩ ∧
    inheritedStubError (⟨0, stubOnlyEngineClass, []⟩ : EngineInstance Nat)
        EngineMethod.train_batch
      = some (.notImplementedError none) := by
  refine ⟨rfl, rfl, ?_, rfl⟩
  simp [EngineRegistry.new, EngineRegistry.register, stubOnlyEngineClass,
    instantiateClass, emptyEngineTable]

/-- Claim C2, amended: the decorator accepts exactly the classes that are
subclasses of `BaseEngine`, raising `AssertionError` (and leaving the table
unchanged) otherwise; acceptance guarantees only that every interface
method exists on the produced instance (inherited from `BaseEngine`), not
that it is implemented — any method the accepted class does not override
remains `BaseEngine`'s stub and raises `NotImplementedError` when invoked
on the instance that `new` returns. -/
theorem claim_C2_amended {Arg : Type} (t : EngineTable Arg) (key : String)
    (cls : EngineClass Arg) :
    ((EngineRegistry.register t key cls).2 = .ok cls
        ↔ cls.isSubclassOfBaseEngine = true) ∧
    ((EngineRegistry.register t key cls).2 = .error .assertionError
        ↔ cls.isSubclassOfBaseEngine = false) ∧
    (cls.isSubclassOfBaseEngine = false →
      (EngineRegistry.register t key cls).1 = t) ∧
    (∀ (n : Nat) (args : List Arg) (inst : EngineInstance Arg),
      cls.isSubclassOfBaseEngine = true →
      (EngineRegistry.new ((EngineRegistry.register t key cls).1) n key args).2.2
          = .ok inst →
      inst.cls = cls ∧
      ∀ m : EngineMethod, cls.overridesMethod m = false →
        inheritedStubError inst m = some (.notImplementedError none)) := by
  refine ⟨?_, ?_, ?_, ?_⟩
  · constructor
    · intro h
      by_contra hc
      simp only [Bool.not_eq_true] at hc
      simp [EngineRegistry.register, hc] at h
    · intro h
      simp [EngineRegistry.register, h]
  · constructor
    · intro h
      by_contra hc
      simp only [Bool.not_eq_false] at hc
      simp [EngineRegistry.register, hc] at h
    · intro h
      simp [EngineRegistry.register, h]
  · intro h
    simp [EngineRegistry.register, h]
  · intro n args inst hsub hok
    have hkey : ((EngineRegistry.register t key cls).1) key = some cls := by
      simp [EngineRegistry.register, hsub]
    rw [EngineRegistry.new, hkey] at hok
    simp only [instantiateClass] at hok
    rcases hinit : cls.initBehavior args with _ | e
    · rw [hinit] at hok
      simp only at hok
      have : inst = ⟨n, cls, args⟩ := by
        cases hok
        rfl
      subst this
      refine ⟨rfl, ?_⟩
      intro m hm
      simp [inheritedStubError, hm]
    · rw [hinit] at hok
      simp at hok

/-- Claim C5: saving `K + M` checkpoints (`M > 0`) at strictly increasing
`global_step` values with `max_ckpt_to_keep = K` leaves exactly the `K`
checkpoints with the highest steps on disk — the final store is the
length-`K` suffix of the saved steps, and every deleted (oldest) step is
strictly below every retained one. -/
theorem claim_C5_retention (K M : Nat) (steps : List Nat)
    (hsorted : steps.Pairwise (· < ·))
    (hlen : steps.length = K + M) (hM : 0 < M) :
    saveCheckpoints (some K) [] steps = steps.drop M ∧
    (saveCheckpoints (some K) [] steps).length = K ∧
    ∀ a ∈ steps.take M, ∀ b ∈ steps.drop M, a < b := by
  have h0 : pruneOldest K ([] : List Nat) = [] := by
    simp [pruneOldest]
  have h1 : saveCheckpoints (some K) [] steps = pruneOldest K steps := by
    rw [← h0, saveCheckpoints_pruneOldest]
    simp
  have h2 : pruneOldest K steps = steps.drop M := by
    unfold pruneOldest
    congr 1
    omega
  refine ⟨h1.trans h2, ?_, ?_⟩
  · rw [h1, h2]
    simp only [List.length_drop]
    omega
  · intro a ha b hb
    have hperm : (steps.take M ++ steps.drop M).Pairwise (· < ·) := by
      rw [List.take_append_drop]
      exact hsorted
    exact (List.pairwise_append.mp hperm).2.2 a ha b hb

/-- Claim C6: registry entries are never removed — across any sequence of
`register` / `new` operations, a key present in the table stays present
(mapped to some class), and a `new` call returns the table it was given,
entirely unchanged. -/
theorem claim_C6_keys_preserved {Arg : Type} (ops : List (RegistryOp Arg))
    (st : EngineTable Arg × Nat) (k : String)
    (hpres : (st.1 k).isSome = true) :
    (((applyRegistryOps st ops).1) k).isSome = true ∧
    ∀ (t : EngineTable Arg) (n : Nat) (key : String) (args : List Arg),
      (EngineRegistry.new t n key args).1 = t := by
  constructor
  · induction ops generalizing st with
    | nil => exact hpres
    | cons op rest ih =>
      have hstep : (((applyRegistryOp st op).1) k).isSome = true := by
        cases op with
        | registerOp key cls =>
          by_cases hsub : cls.isSubclassOfBaseEngine
          · by_cases hk : k = key <;>
              simp [applyRegistryOp, EngineRegistry.register, hsub, hk, hpres]
          · simpa [applyRegistryOp, EngineRegistry.register, hsub] using hpres
        | newOp key args =>
          rcases h : st.1 key with _ | cls <;>
            simpa [applyRegistryOp, EngineRegistry.new, h] using hpres
      exact ih (applyRegistryOp st op) hstep
  · intro t n key args
    rcases h : t key with _ | cls <;> simp [EngineRegistry.new, h]


/-- Witness for claim C1 at a concrete table: the key "megatron" is
unregistered and `new` raises "Unknown engine: megatron"; the key "fsdp" is
registered and `new` returns a fresh `fsdpEngineClass` instance built from
the given arguments. -/
theorem claim_C1_new_dispatch_witness :
    EngineRegistry.new sampleEngineTable 0 "megatron" ([] : List Nat)
        = (sampleEngineTable, 0,
           .error (.notImplementedError (some "Unknown engine: megatron"))) ∧
    EngineRegistry.new sampleEngineTable 0 "fsdp" [7]
        = (sampleEngineTable, 1, .ok ⟨0, fsdpEngineClass, [7]⟩) :=
  ⟨(claim_C1_new_dispatch sampleEngineTable 0 "megatron" []).1 rfl,
   ((claim_C1_new_dispatch sampleEngineTable 0 "fsdp" [7]).2 fsdpEngineClass rfl).2 rfl⟩

/-- Witness for the amended claim C2 at a concrete class: registering the
stub-only subclass succeeds, and a method it does not override raises the
inherited stub's `NotImplementedError` on the constructed instance. -/
theorem claim_C2_amended_witness :
    (EngineRegistry.register (emptyEngineTable Nat) "stub" stubOnlyEngineClass).2
        = .ok stubOnlyEngineClass ∧
    inheritedStubError (⟨0, stubOnlyEngineClass, []⟩ : EngineInstance Nat)
        EngineMethod.eval_mode = some (.notImplementedError none) :=
  ⟨(claim_C2_amended (emptyEngineTable Nat) "stub" stubOnlyEngineClass).1.mpr rfl,
   ((claim_C2_amended (emptyEngineTable Nat) "stub" stubOnlyEngineClass).2.2.2
      0 [] ⟨0, stubOnlyEngineClass, []⟩ rfl rfl).2 EngineMethod.eval_mode rfl⟩

/-- Witness for claim C4 at a concrete table: two consecutive `new` calls on
"fsdp" return instances with object ids 0 and 1, each carrying exactly the
arguments passed. -/
theorem claim_C4_fresh_instances_witness :
    EngineRegistry.new sampleEngineTable 0 "fsdp" [1, 2]
        = (sampleEngineTable, 1, .ok ⟨0, fsdpEngineClass, [1, 2]⟩) ∧
    EngineRegistry.new sampleEngineTable 1 "fsdp" [3]
        = (sampleEngineTable, 2, .ok ⟨1, fsdpEngineClass, [3]⟩) ∧
    (⟨0, fsdpEngineClass, [1, 2]⟩ : EngineInstance Nat).objId
      ≠ (⟨1, fsdpEngineClass, [3]⟩ : EngineInstance Nat).objId :=
  claim_C4_fresh_instances sampleEngineTable 0 "fsdp" [1, 2] [3] fsdpEngineClass
    rfl rfl rfl

/-- Witness for claim C5: saving at steps 10, 20, 30 with
`max_ckpt_to_keep = 2` leaves exactly the two highest steps on disk. -/
theorem claim_C5_retention_witness :
    saveCheckpoints (some 2) [] [10, 20, 30] = [20, 30] :=
  (claim_C5_retention 2 1 [10, 20, 30] (by decide) rfl (by decide)).1

/-- Witness for claim C6: after a further registration under another key and
a `new` call, the key "fsdp" is still present in the table. -/
theorem claim_C6_keys_preserved_witness :
    (((applyRegistryOps (sampleEngineTable, 0)
        [RegistryOp.registerOp "megatron" megatronEngineClass,
         RegistryOp.newOp "fsdp" [5]]).1) "fsdp").isSome = true :=
  (claim_C6_keys_preserved
      [RegistryOp.registerOp "megatron" megatronEngineClass,
       RegistryOp.newOp "fsdp" [5]]
      (sampleEngineTable, 0) "fsdp" rfl).1

/-- Witness for claim C8: registering `megatronEngineClass` over the key
already holding `fsdpEngineClass` succeeds and the key now maps to
`megatronEngineClass`. -/
theorem claim_C8_reregister_overwrites_witness :
    (EngineRegistry.register
        ((EngineRegistry.register (emptyEngineTable Nat) "k" fsdpEngineClass).1)
        "k" megatronEngineClass).2 = .ok megatronEngineClass ∧
    ((EngineRegistry.register
        ((EngineRegistry.register (emptyEngineTable Nat) "k" fsdpEngineClass).1)
        "k" megatronEngineClass).1) "k" = some megatronEngineClass :=
  ⟨(claim_C8_reregister_overwrites (emptyEngineTable Nat) "k" fsdpEngineClass
      megatronEngineClass 0 [] rfl rfl).1,
   (claim_C8_reregister_overwrites (emptyEngineTable Nat) "k" fsdpEngineClass
      megatronEngineClass 0 [] rfl rfl).2.1⟩

/-- Witness for claim C9: applying the decorator to a non-`BaseEngine` class
raises `AssertionError` and returns the table unchanged. -/
theorem claim_C9_failed_register_atomic_witness :
    EngineRegistry.register (emptyEngineTable Nat) "bad" notAnEngineClass
        = (emptyEngineTable Nat, .error .assertionError) :=
  (claim_C9_failed_register_atomic (emptyEngineTable Nat) "bad"
      notAnEngineClass rfl).1

/-- Witness for claim C10: the decorator returns `fsdpEngineClass` itself. -/
theorem claim_C10_decorator_returns_class_witness :
    (EngineRegistry.register (emptyEngineTable Nat) "fsdp" fsdpEngineClass).2
        = .ok fsdpEngineClass :=
  claim_C10_decorator_returns_class (emptyEngineTable Nat) "fsdp"
    fsdpEngineClass rfl
